import Mathlib

set_option maxRecDepth 100000

/-!
Shallow embedding of `src/server.js` (ReceiptPraiser): the response
extractor `extractJsonMaybe`, the inference client `callGemini`, and the
`/analyze` request handler.  JavaScript strings are modelled as Lean
`String`s processed as `List Char`; `JSON.parse` / `JSON.stringify` are
modelled by an executable parser / printer over an inductive `Json` type
(numbers keep their source lexeme; JavaScript float round-tripping such as
`1.0 ↦ 1` is not modelled, and `\uXXXX` escapes denoting lone surrogates
are approximated by the null character, since neither affects any
behaviour studied here).  Effects are made explicit: the handler is a pure
function of the request plus the outcome of the single outbound network
call, and it additionally reports whether the inference client was invoked
and whether a network request was issued.
-/

/-- The left curly bracket character (escaped throughout this file). -/
def lbraceChar : Char := Char.ofNat 123

/-- The right curly bracket character. -/
def rbraceChar : Char := Char.ofNat 125

/-- The backtick character used by markdown code fences. -/
def backtickChar : Char := Char.ofNat 96

/-- Rebuild a `String` from a list of characters. -/
def charsStr (cs : List Char) : String := String.mk cs

/-- Code points of JavaScript WhiteSpace and LineTerminator characters:
these are exactly the characters matched by the regex class `\s` and
removed by `String.prototype.trim`. -/
def jsWsCodes : List Nat :=
  [9, 10, 11, 12, 13, 32, 160, 5760,
   8192, 8193, 8194, 8195, 8196, 8197, 8198, 8199, 8200, 8201, 8202,
   8232, 8233, 8239, 8287, 12288, 65279]

/-- Whether a character is JavaScript whitespace. -/
def jsWsB (c : Char) : Bool := jsWsCodes.contains c.toNat

/-- Remove leading JavaScript whitespace. -/
def trimLeftChars (cs : List Char) : List Char := cs.dropWhile jsWsB

/-- Remove JavaScript whitespace from both ends, as `String.prototype.trim`. -/
def trimChars (cs : List Char) : List Char :=
  ((cs.dropWhile jsWsB).reverse.dropWhile jsWsB).reverse

/-- `s.trim()` of JavaScript. -/
def jsTrimStr (s : String) : String := charsStr (trimChars s.data)

/-- Index of the first occurrence of `c`, as `String.prototype.indexOf`
(restricted to a one-character needle); `none` models `-1`. -/
def listIdxOf (c : Char) : List Char → Option Nat
  | [] => none
  | x :: rest => if x = c then some 0 else (listIdxOf c rest).map (fun n => n + 1)

/-- Index of the last occurrence of `c`, as `String.prototype.lastIndexOf`. -/
def listLastIdxOf (c : Char) (cs : List Char) : Option Nat :=
  match listIdxOf c cs.reverse with
  | some k => some (cs.length - 1 - k)
  | none => none

/-- Whether the list starts with three backticks. -/
def startsTriple : List Char → Bool
  | a :: b :: c :: _ => a = backtickChar && b = backtickChar && c = backtickChar
  | _ => false

/-- Whether the list starts with the letters "json", case-insensitively
(the regex `(?:json)?` under the `i` flag; for non-Unicode regexes the
fold is the ASCII one). -/
def startsWithJsonCI : List Char → Bool
  | a :: b :: c :: d :: _ =>
    a.toLower = 'j' && b.toLower = 's' && c.toLower = 'o' && d.toLower = 'n'
  | _ => false

/-- Index of the first occurrence of "```" (three consecutive backticks). -/
def findTriple : List Char → Option Nat
  | [] => none
  | c :: rest =>
    if startsTriple (c :: rest) then some 0
    else (findTriple rest).map (fun n => n + 1)

/-- Attempt the fence regex match at the current position.  The pattern
is three backticks, an optional case-insensitive "json" tag, `\s*`, a lazy
capture group, `\s*`, and three closing backticks.  Because the closing
delimiter contains no whitespace and the tag no backtick, the match
(when it exists) closes at the first later occurrence of "```", and the
capture group is the text in between with outer whitespace stripped by
the two `\s*`. -/
def tryFenceAt (cs : List Char) : Option String :=
  if startsTriple cs then
    let cs1 := cs.drop 3
    let cs2 := if startsWithJsonCI cs1 then cs1.drop 4 else cs1
    match findTriple cs2 with
    | some m => some (charsStr (trimChars (cs2.take m)))
    | none => none
  else none

/-- Scan left to right for the first position where the fence regex
matches, returning the capture group `fence[1]`, as
`text.match(/...fence regex.../i)` does. -/
def fenceScan : List Char → Option String
  | [] => none
  | c :: rest =>
    match tryFenceAt (c :: rest) with
    | some g => some g
    | none => fenceScan rest

/-- The capture group of the first fence-regex match in `text`. -/
def fenceCapture (text : String) : Option String := fenceScan text.data

/-- The brace-scanning arm of `extractJsonMaybe`: locate the first
left brace and the last right brace, and when the former is strictly
earlier, return the trimmed inclusive slice between them. -/
def braceExtract (text : String) : Option String :=
  let cs := text.data
  match listIdxOf lbraceChar cs, listLastIdxOf rbraceChar cs with
  | some first, some last =>
    if first < last then
      some (charsStr (trimChars ((cs.drop first).take (last + 1 - first))))
    else none
  | _, _ => none

/-- `extractJsonMaybe` from `src/server.js`: empty input yields no
candidate; a fence-regex match with a truthy (non-empty) capture yields
the trimmed capture; otherwise brace scanning decides. -/
def extractJsonMaybe (text : String) : Option String :=
  if text = "" then none
  else
    match fenceCapture text with
    | some cap => if cap = "" then braceExtract text else some (jsTrimStr cap)
    | none => braceExtract text

example : extractJsonMaybe "" = none := rfl
example : extractJsonMaybe "no braces here" = none := rfl
example : extractJsonMaybe "Here is data: \x7b\"a\":1\x7d thanks" = some "\x7b\"a\":1\x7d" := rfl
example : extractJsonMaybe "```json\n\x7b\"a\":1\x7d\n```" = some "\x7b\"a\":1\x7d" := rfl
example : extractJsonMaybe "``` ``` \x7b\"a\":1\x7d" = some "\x7b\"a\":1\x7d" := rfl
example : fenceCapture "``` ```" = some "" := rfl

/-- JSON values as produced by `JSON.parse`.  Object fields keep
insertion order; numbers keep their validated source lexeme. -/
inductive Json where
  | null : Json
  | bool : Bool → Json
  | num : String → Json
  | str : String → Json
  | arr : List Json → Json
  | obj : List (String × Json) → Json

/-- JSON insignificant whitespace (space, tab, line feed, carriage return). -/
def jsonWsB (c : Char) : Bool :=
  c.toNat = 32 || c.toNat = 9 || c.toNat = 10 || c.toNat = 13

/-- Drop leading JSON whitespace. -/
def skipJsonWs (cs : List Char) : List Char := cs.dropWhile jsonWsB

/-- Whether a character is an ASCII decimal digit. -/
def isDigitChar (c : Char) : Bool := 48 ≤ c.toNat && c.toNat ≤ 57

/-- Value of a hexadecimal digit, if any. -/
def hexVal (c : Char) : Option Nat :=
  if 48 ≤ c.toNat && c.toNat ≤ 57 then some (c.toNat - 48)
  else if 97 ≤ c.toNat && c.toNat ≤ 102 then some (c.toNat - 87)
  else if 65 ≤ c.toNat && c.toNat ≤ 70 then some (c.toNat - 55)
  else none

/-- Body of a JSON string literal, after the opening quote: decode
escapes and stop at the closing quote.  Code units from `\uXXXX` escapes
that are not valid scalar values map to the null character. -/
def parseStringAux : List Char → List Char → Option (String × List Char)
  | [], _ => none
  | c :: rest, acc =>
    if c = '"' then some (charsStr acc.reverse, rest)
    else if c = '\\' then
      match rest with
      | [] => none
      | e :: rest2 =>
        if e = '"' then parseStringAux rest2 ('"' :: acc)
        else if e = '\\' then parseStringAux rest2 ('\\' :: acc)
        else if e = '/' then parseStringAux rest2 ('/' :: acc)
        else if e = 'b' then parseStringAux rest2 (Char.ofNat 8 :: acc)
        else if e = 'f' then parseStringAux rest2 (Char.ofNat 12 :: acc)
        else if e = 'n' then parseStringAux rest2 (Char.ofNat 10 :: acc)
        else if e = 'r' then parseStringAux rest2 (Char.ofNat 13 :: acc)
        else if e = 't' then parseStringAux rest2 (Char.ofNat 9 :: acc)
        else if e = 'u' then
          match rest2 with
          | h1 :: h2 :: h3 :: h4 :: rest3 =>
            match hexVal h1, hexVal h2, hexVal h3, hexVal h4 with
            | some a, some b, some c2, some d =>
              parseStringAux rest3 (Char.ofNat (a * 4096 + b * 256 + c2 * 16 + d) :: acc)
            | _, _, _, _ => none
          | _ => none
        else none
    else if c.toNat < 32 then none
    else parseStringAux rest (c :: acc)

/-- Longest prefix of decimal digits, and the remainder. -/
def spanDigits : List Char → List Char × List Char
  | [] => ([], [])
  | c :: rest =>
    if isDigitChar c then
      match spanDigits rest with
      | (ds, r) => (c :: ds, r)
    else ([], c :: rest)

/-- Integer part of a JSON number (no leading zeros except "0" itself). -/
def parseNumberInt : List Char → Option (List Char × List Char)
  | [] => none
  | c :: rest =>
    if c = '0' then some ([c], rest)
    else if isDigitChar c then
      match spanDigits rest with
      | (ds, r) => some (c :: ds, r)
    else none

/-- Optional fraction part; consumed only when fully well-formed. -/
def parseNumberFrac (cs : List Char) : List Char × List Char :=
  match cs with
  | '.' :: rest =>
    (match spanDigits rest with
     | ([], _) => ([], cs)
     | (ds, r) => ('.' :: ds, r))
  | _ => ([], cs)

/-- Optional exponent part; consumed only when fully well-formed. -/
def parseNumberExp (cs : List Char) : List Char × List Char :=
  match cs with
  | c :: rest =>
    if c = 'e' || c = 'E' then
      match rest with
      | s :: rest2 =>
        if s = '+' || s = '-' then
          match spanDigits rest2 with
          | ([], _) => ([], cs)
          | (ds, r) => (c :: s :: ds, r)
        else
          match spanDigits rest with
          | ([], _) => ([], cs)
          | (ds, r) => (c :: ds, r)
      | [] => ([], cs)
    else ([], cs)
  | [] => ([], cs)

/-- A JSON number token: sign, integer part, optional fraction and
exponent; returns the lexeme and the remainder. -/
def parseNumber (cs : List Char) : Option (String × List Char) :=
  let sc : List Char × List Char :=
    match cs with
    | c :: rest => if c = '-' then ([c], rest) else ([], cs)
    | [] => ([], cs)
  match parseNumberInt sc.snd with
  | none => none
  | some (ip, cs2) =>
    let fc := parseNumberFrac cs2
    let ec := parseNumberExp fc.snd
    some (charsStr (sc.fst ++ ip ++ fc.fst ++ ec.fst), ec.snd)

/-- Insert a field into an object under construction: a duplicate key
keeps its first position but takes the later value, as in `JSON.parse`. -/
def objInsert : List (String × Json) → String → Json → List (String × Json)
  | [], k, v => [(k, v)]
  | (k', v') :: rest, k, v =>
    if k' = k then (k', v) :: rest else (k', v') :: objInsert rest k v

/-- Parser mode: a single value, array items, or object fields. -/
inductive PMode where
  | value : PMode
  | arrItems : List Json → PMode
  | objItems : List (String × Json) → PMode

/-- Recursive-descent JSON parsing, fuelled to make the recursion
structural.  `value` expects its input already stripped of leading
whitespace; the item modes expect to sit at the first item or at the
closing delimiter (the latter accepted only while the accumulator is
empty, since a trailing comma is invalid JSON). -/
def parseStep : Nat → PMode → List Char → Option (Json × List Char)
  | 0, _, _ => none
  | Nat.succ n, PMode.value, cs =>
    match cs with
    | [] => none
    | c :: rest =>
      if c = lbraceChar then parseStep n (PMode.objItems []) (skipJsonWs rest)
      else if c = '[' then parseStep n (PMode.arrItems []) (skipJsonWs rest)
      else if c = '"' then
        match parseStringAux rest [] with
        | some (s, r) => some (Json.str s, r)
        | none => none
      else if c = 't' then
        match rest with
        | 'r' :: 'u' :: 'e' :: r => some (Json.bool true, r)
        | _ => none
      else if c = 'f' then
        match rest with
        | 'a' :: 'l' :: 's' :: 'e' :: r => some (Json.bool false, r)
        | _ => none
      else if c = 'n' then
        match rest with
        | 'u' :: 'l' :: 'l' :: r => some (Json.null, r)
        | _ => none
      else
        match parseNumber (c :: rest) with
        | some (lex, r) => some (Json.num lex, r)
        | none => none
  | Nat.succ n, PMode.arrItems acc, cs =>
    match cs, acc with
    | ']' :: r, [] => some (Json.arr [], r)
    | _, _ =>
      match parseStep n PMode.value cs with
      | none => none
      | some (v, r1) =>
        match skipJsonWs r1 with
        | ',' :: r2 => parseStep n (PMode.arrItems (v :: acc)) (skipJsonWs r2)
        | ']' :: r2 => some (Json.arr (v :: acc).reverse, r2)
        | _ => none
  | Nat.succ n, PMode.objItems acc, cs =>
    match cs with
    | [] => none
    | c :: rest =>
      if c = rbraceChar then
        if acc.isEmpty then some (Json.obj [], rest) else none
      else if c = '"' then
        match parseStringAux rest [] with
        | none => none
        | some (k, r1) =>
          match skipJsonWs r1 with
          | ':' :: r2 =>
            (match parseStep n PMode.value (skipJsonWs r2) with
             | none => none
             | some (v, r3) =>
               match skipJsonWs r3 with
               | ',' :: r4 => parseStep n (PMode.objItems (objInsert acc k v)) (skipJsonWs r4)
               | c2 :: r4 =>
                 if c2 = rbraceChar then some (Json.obj (objInsert acc k v), r4) else none
               | [] => none)
          | _ => none
      else none

/-- `JSON.parse` on a whole string: parse one value surrounded by
optional whitespace; anything left over is a syntax error (`none`). -/
def Json.parse (s : String) : Option Json :=
  match parseStep (s.data.length + 2) PMode.value (skipJsonWs s.data) with
  | some (v, rest) => if (skipJsonWs rest).isEmpty then some v else none
  | none => none

example : Json.parse "123" = some (Json.num "123") := rfl
example : Json.parse "[1,2]" = some (Json.arr [Json.num "1", Json.num "2"]) := rfl
example : Json.parse "hello" = none := rfl
example : Json.parse "" = none := rfl
example : Json.parse " \x7b\"a\": [true, null], \"b\": \"x\\n\"\x7d " =
    some (Json.obj [("a", Json.arr [Json.bool true, Json.null]), ("b", Json.str (charsStr ['x', Char.ofNat 10]))]) := rfl
example : Json.parse "\x7b\"a\":1,\"a\":2\x7d" = some (Json.obj [("a", Json.num "2")]) := rfl
example : Json.parse "\x7b\"a\":1,\x7d" = none := rfl
example : Json.parse "01" = none := rfl
example : Json.parse "-12.5e+3" = some (Json.num "-12.5e+3") := rfl
example : Json.parse "\"T\"" = some (Json.str "T") := rfl

/-- The string consisting of a left curly bracket. -/
def lbraceStr : String := charsStr [lbraceChar]

/-- The string consisting of a right curly bracket. -/
def rbraceStr : String := charsStr [rbraceChar]

/-- Hexadecimal digit character (lowercase), for string escapes. -/
def hexDigitChar (n : Nat) : Char :=
  if n < 10 then Char.ofNat (48 + n) else Char.ofNat (87 + n)

/-- Escape one character as `JSON.stringify` does inside string values. -/
def escJsonChar (c : Char) : String :=
  if c = '"' then "\\\""
  else if c = '\\' then "\\\\"
  else if c.toNat = 8 then "\\b"
  else if c.toNat = 9 then "\\t"
  else if c.toNat = 10 then "\\n"
  else if c.toNat = 12 then "\\f"
  else if c.toNat = 13 then "\\r"
  else if c.toNat < 32 then
    "\\u00" ++ charsStr [hexDigitChar (c.toNat / 16), hexDigitChar (c.toNat % 16)]
  else charsStr [c]

/-- A double-quoted JSON string literal for `s`. -/
def jsonQuote (s : String) : String :=
  "\"" ++ String.join (s.data.map escJsonChar) ++ "\""

/-- Printer mode for `JSON.stringify`: a value, array items, or object fields. -/
inductive SMode where
  | val : Json → SMode
  | items : List Json → SMode
  | fields : List (String × Json) → SMode

/-- Fuelled worker for `JSON.stringify` (fuel makes the nested recursion
structural; the wrapper supplies enough fuel for any argument). -/
def stringifyGo : Nat → SMode → String
  | 0, _ => ""
  | Nat.succ n, SMode.val v =>
    match v with
    | Json.null => "null"
    | Json.bool true => "true"
    | Json.bool false => "false"
    | Json.num lex => lex
    | Json.str s => jsonQuote s
    | Json.arr xs => "[" ++ stringifyGo n (SMode.items xs) ++ "]"
    | Json.obj fs => lbraceStr ++ stringifyGo n (SMode.fields fs) ++ rbraceStr
  | Nat.succ n, SMode.items l =>
    match l with
    | [] => ""
    | [x] => stringifyGo n (SMode.val x)
    | x :: y :: rest => stringifyGo n (SMode.val x) ++ "," ++ stringifyGo n (SMode.items (y :: rest))
  | Nat.succ n, SMode.fields l =>
    match l with
    | [] => ""
    | [(k, v)] => jsonQuote k ++ ":" ++ stringifyGo n (SMode.val v)
    | (k, v) :: y :: rest =>
      jsonQuote k ++ ":" ++ stringifyGo n (SMode.val v) ++ "," ++ stringifyGo n (SMode.fields (y :: rest))

/-- `JSON.stringify` on a parsed value (no `undefined`s can occur),
given printing fuel.  Every fuelled printer and converter in this file
receives fuel dominating the recursion depth of its argument, so the
fuel-exhaustion branch is never taken. -/
def Json.stringify (fuel : Nat) (v : Json) : String := stringifyGo fuel (SMode.val v)

example : Json.stringify 20 (Json.obj [("a", Json.arr [Json.num "1", Json.null, Json.str "x"])]) =
    "\x7b\"a\":[1,null,\"x\"]\x7d" := rfl

/-- Mode for the JavaScript `String(·)` / `Array.prototype.join`
conversion: one value, or the elements of an array being joined. -/
inductive JMode where
  | one : Json → JMode
  | many : List Json → JMode

/-- Fuelled worker converting a JavaScript value to the string that
`Array.prototype.join` uses for it: `null` (and `undefined`) become the
empty string, strings stay themselves, booleans and numbers print, an
array joins its elements with commas, and a plain object prints as
"[object Object]". -/
def jsJoinGo : Nat → JMode → String
  | 0, _ => ""
  | Nat.succ n, JMode.one v =>
    match v with
    | Json.null => ""
    | Json.str s => s
    | Json.num lex => lex
    | Json.bool true => "true"
    | Json.bool false => "false"
    | Json.obj _ => "[object Object]"
    | Json.arr xs => jsJoinGo n (JMode.many xs)
  | Nat.succ n, JMode.many l =>
    match l with
    | [] => ""
    | [x] => jsJoinGo n (JMode.one x)
    | x :: y :: rest => jsJoinGo n (JMode.one x) ++ "," ++ jsJoinGo n (JMode.many (y :: rest))

/-- The string `Array.prototype.join` uses for one element, given
printing fuel.  For any non-array value the fuel is irrelevant as long
as it is positive. -/
def jsJoinConv (fuel : Nat) (v : Json) : String := jsJoinGo fuel (JMode.one v)

/-- Field lookup in a JSON object field list. -/
def jLookup (k : String) : List (String × Json) → Option Json
  | [] => none
  | (k', v) :: rest => if k' = k then some v else jLookup k rest

/-- JavaScript property access `v?.k`: defined on objects, `undefined`
(`none`) elsewhere (including `null`, which `?.` short-circuits). -/
def jsGet (v : Json) (k : String) : Option Json :=
  match v with
  | Json.obj fs => jLookup k fs
  | _ => none

/-- JavaScript `v?.[0]`: the first array element, the "0" property of an
object, the first character of a string, `undefined` otherwise. -/
def jsIndex0 : Json → Option Json
  | Json.arr (x :: _) => some x
  | Json.arr [] => none
  | Json.obj fs => jLookup "0" fs
  | Json.str s =>
    match s.data with
    | c :: _ => some (Json.str (charsStr [c]))
    | [] => none
  | _ => none

/-- The optional-chain `data?.candidates?.[0]?.content?.parts`. -/
def navParts (data : Json) : Option Json :=
  (jsGet data "candidates").bind fun cands =>
    (jsIndex0 cands).bind fun c0 =>
      (jsGet c0 "content").bind fun content =>
        jsGet content "parts"

/-- Message of the TypeError raised when a null part flows through the
map callback `p => p.text` (the precise platform wording is
engine-specific). -/
def nullTextErrorMessage : String := "Cannot read properties of null (reading 'text')"

/-- Message of the TypeError raised when `parts` is neither an array nor
nullish, so `.map` is not a function (platform wording is engine-specific). -/
def mapTypeErrorMessage : String := "parts.map is not a function"

/-- Message of the SyntaxError from `res.json()` on an unparseable body
(platform wording is engine-specific). -/
def jsonSyntaxErrorMessage (_body : String) : String := "Unexpected token in JSON"

/-- One step of `parts.map(p => p.text)` as later consumed by
`join("\n")`: a null element makes the callback throw; otherwise a
missing or null `text` contributes the empty string and any other value
its join conversion. -/
def partJoinElem (fuel : Nat) : Json → Except String String
  | Json.null => Except.error nullTextErrorMessage
  | Json.obj fs =>
    Except.ok
      (match jLookup "text" fs with
       | none => ""
       | some Json.null => ""
       | some v => jsJoinConv fuel v)
  | _ => Except.ok ""

/-- `parts.map(p => p.text)` over the whole array, left to right,
propagating the first thrown TypeError. -/
def partsTexts (fuel : Nat) : List Json → Except String (List String)
  | [] => Except.ok []
  | p :: rest =>
    match partJoinElem fuel p with
    | Except.error e => Except.error e
    | Except.ok s =>
      match partsTexts fuel rest with
      | Except.error e => Except.error e
      | Except.ok ss => Except.ok (s :: ss)

/-- `join("\n")` over the mapped strings. -/
def joinNl : List String → String
  | [] => ""
  | [x] => x
  | x :: y :: rest => x ++ "\n" ++ joinNl (y :: rest)

/-- The reply-text expression of `callGemini`:
`data?.candidates?.[0]?.content?.parts?.map(p => p.text).join("\n") || JSON.stringify(data)`.
A nullish `parts` path makes the left operand `undefined`; a non-array,
non-nullish `parts` throws; otherwise the join is used unless it is the
empty string, in which case the stringified body wins. -/
def extractReplyText (fuel : Nat) (data : Json) : Except String String :=
  match navParts data with
  | none => Except.ok (Json.stringify fuel data)
  | some Json.null => Except.ok (Json.stringify fuel data)
  | some (Json.arr parts) =>
    match partsTexts fuel parts with
    | Except.error e => Except.error e
    | Except.ok texts =>
      Except.ok (if joinNl texts = "" then Json.stringify fuel data else joinNl texts)
  | some _ => Except.error mapTypeErrorMessage

/-- Printing fuel derived from the response body: a value parsed from
`body` has fewer nodes than `body` has characters, so this dominates the
recursion depth of printing or join-converting any part of it. -/
def printFuel (body : String) : Nat := 2 * body.data.length + 4

/-- The fixed system instructions template literal from `src/server.js`
(curly brackets written with character escapes). -/
def SYSTEM_INSTRUCTIONS : String :=
  "\n"
  ++ "You are a precise document analyst. Output one JSON object only. No prose. No code fences.\n"
  ++ "\n"
  ++ "Detect \"document_type\" in \"receipt\", \"invoice\", or \"other\".\n"
  ++ "\n"
  ++ "If \"document_type\" is \"receipt\" or \"invoice\", return this object. Missing data becomes empty string or empty array.\n"
  ++ "\n"
  ++ "\x7b\n"
  ++ "  \"document_type\": \"receipt\",\n"
  ++ "  \"vendor_name\": \"\",\n"
  ++ "  \"vendor_address\": \"\",\n"
  ++ "  \"vendor_phone\": \"\",\n"
  ++ "  \"date\": \"\",\n"
  ++ "  \"time\": \"\",\n"
  ++ "  \"currency\": \"\",\n"
  ++ "  \"invoice_number\": \"\",\n"
  ++ "  \"order_number\": \"\",\n"
  ++ "  \"payment_method\": \"\",\n"
  ++ "  \"last4\": \"\",\n"
  ++ "  \"items\": [\n"
  ++ "    \x7b\"name\": \"\", \"qty\": \"\", \"unit_price\": \"\", \"line_total\": \"\", \"sku\": \"\"\x7d\n"
  ++ "  ],\n"
  ++ "  \"subtotal\": \"\",\n"
  ++ "  \"taxes\": [ \x7b\"name\": \"\", \"rate\": \"\", \"amount\": \"\"\x7d ],\n"
  ++ "  \"discounts\": [ \x7b\"name\": \"\", \"amount\": \"\"\x7d ],\n"
  ++ "  \"fees\": [ \x7b\"name\": \"\", \"amount\": \"\"\x7d ],\n"
  ++ "  \"tips\": \"\",\n"
  ++ "  \"total\": \"\",\n"
  ++ "  \"notes\": \"\",\n"
  ++ "  \"confidence\": \x7b\"total\": 0, \"items\": 0\x7d\n"
  ++ "\x7d\n"
  ++ "\n"
  ++ "If the file is not a receipt or invoice, return:\n"
  ++ "\x7b\n"
  ++ "  \"document_type\":\"other\",\n"
  ++ "  \"title\":\"\",\n"
  ++ "  \"summary\":\"\",\n"
  ++ "  \"notes\":\"\"\n"
  ++ "\x7d\n"
  ++ "\n"
  ++ "Normalization rules:\n"
  ++ "1) All money values are plain strings using a dot as decimal separator with two decimals when possible\n"
  ++ "2) \"qty\" is a plain string and prefer an integer when possible\n"
  ++ "3) If multiple taxes exist, fill the \"taxes\" array with one entry per tax, and put the rate number only in \"rate\" without the percent sign\n"
  ++ "4) Compute \"subtotal\" as the sum of \"line_total\" when possible\n"
  ++ "5) Compute a candidate grand total as subtotal plus all tax and fee and tip amounts minus all discounts\n"
  ++ "6) If the printed total and your computed total differ by more than one percent, keep the printed total in \"total\" and add a one line warning in \"notes\"\n"

/-- `buildUserPrompt` from `src/server.js`. -/
def buildUserPrompt (filename : String) : String :=
  "Analyze the uploaded file named " ++ filename
  ++ ". Extract data per the schema. Respond in pure JSON only. No markdown. No backticks."

/-- The outbound endpoint URL with the credential as query parameter. -/
def geminiUrl (apiKey : String) : String :=
  "https://generativelanguage.googleapis.com/v1beta/models/gemini-1.5-flash-latest:generateContent?key="
  ++ apiKey

/-- The JSON request body `callGemini` constructs: one user turn with
the fixed instructions, the per-request prompt, and the inline base64
payload, plus a temperature of 0.2. -/
def geminiRequestBody (base64 mime filename : String) : Json :=
  Json.obj
    [("contents", Json.arr
       [Json.obj
          [("role", Json.str "user"),
           ("parts", Json.arr
              [Json.obj [("text", Json.str SYSTEM_INSTRUCTIONS)],
               Json.obj [("text", Json.str (buildUserPrompt filename))],
               Json.obj [("inline_data",
                  Json.obj [("mime_type", Json.str mime), ("data", Json.str base64)])]])]]),
     ("generationConfig", Json.obj [("temperature", Json.num "0.2")])]

/-- The base64 digit alphabet. -/
def b64Digits : List Char :=
  "ABCDEFGHIJKLMNOPQRSTUVWXYZabcdefghijklmnopqrstuvwxyz0123456789+/".data

/-- The base64 digit for a 6-bit value. -/
def b64Char (n : Nat) : Char := b64Digits.getD n 'A'

/-- `Buffer.prototype.toString("base64")` over a byte list (values are
reduced mod 256), with `=` padding. -/
def toBase64 : List Nat → String
  | [] => ""
  | [a] =>
    let a' := a % 256
    charsStr [b64Char (a' / 4), b64Char (a' % 4 * 16)] ++ "=="
  | [a, b] =>
    let a' := a % 256
    let b' := b % 256
    charsStr [b64Char (a' / 4), b64Char (a' % 4 * 16 + b' / 16), b64Char (b' % 16 * 4)] ++ "="
  | a :: b :: c :: rest =>
    let a' := a % 256
    let b' := b % 256
    let c' := c % 256
    charsStr [b64Char (a' / 4), b64Char (a' % 4 * 16 + b' / 16),
              b64Char (b' % 16 * 4 + c' / 64), b64Char (c' % 64)] ++ toBase64 rest

example : toBase64 [77, 97, 110] = "TWFu" := rfl
example : toBase64 [77, 97] = "TWE=" := rfl
example : toBase64 [77] = "TQ==" := rfl

/-- Outcome of the single outbound `fetch`: an HTTP response with a
status and a body string, or a network-level failure (connection error,
or the 30-second abort) carrying the underlying error message. -/
inductive NetOutcome where
  | resp : Nat → String → NetOutcome
  | netFail : String → NetOutcome

/-- `Response.ok` of the Fetch API: status in the inclusive range 200-299. -/
def resOk (status : Nat) : Bool := 200 ≤ status && status ≤ 299

/-- `callGemini` from `src/server.js`, as a pure function of the
credential, the call arguments, and the outcome of the one outbound
request.  The second component records whether a network request was
issued at all.  A missing credential throws before the `try` block, so
its message is not wrapped; every failure inside the `try` is re-thrown
with the "Gemini fetch failed: " prefix. -/
def callGemini (apiKey base64 mime filename : String) (net : NetOutcome) :
    Except String String × Bool :=
  if apiKey = "" then (Except.error "Missing GOOGLE_API_KEY", false)
  else
    let _url := geminiUrl apiKey
    let _reqBody := geminiRequestBody base64 mime filename
    match net with
    | NetOutcome.netFail m => (Except.error ("Gemini fetch failed: " ++ m), true)
    | NetOutcome.resp status body =>
      if resOk status then
        match Json.parse body with
        | none => (Except.error ("Gemini fetch failed: " ++ jsonSyntaxErrorMessage body), true)
        | some data =>
          match extractReplyText (printFuel body) data with
          | Except.error m => (Except.error ("Gemini fetch failed: " ++ m), true)
          | Except.ok t => (Except.ok t, true)
      else
        (Except.error ("Gemini fetch failed: Gemini HTTP " ++ Nat.repr status ++ ": " ++ body), true)

/-- The uploaded file as multer's memory storage presents it. -/
structure ReqFile where
  originalname : String
  mimetype : String
  buffer : List Nat

/-- Observable outcome of one `/analyze` request: HTTP status, JSON
body, whether `callGemini` was invoked, and whether a network request
was issued. -/
structure HandlerTrace where
  status : Nat
  body : Json
  geminiCalled : Bool
  fetchIssued : Bool

/-- The argument of the handler's `JSON.parse` attempt:
`cleaned || rawText` (a `null` or empty extraction result falls back to
the raw reply; the extractor in fact never returns an empty string). -/
def parseCandidate (rawText : String) : String :=
  match extractJsonMaybe rawText with
  | some s => if s = "" then rawText else s
  | none => rawText

/-- The synthesized generic-document fallback of the handler's parse step. -/
def fallbackDoc (rawText : String) : Json :=
  Json.obj
    [("document_type", Json.str "other"), ("title", Json.str "Analysis"),
     ("summary", Json.str ""), ("notes", Json.str rawText)]

/-- The handler's extraction-parse-fallback pipeline: the `data` value
of the success envelope as a function of the raw reply text. -/
def analyzeParsed (rawText : String) : Json :=
  match Json.parse (parseCandidate rawText) with
  | some v => v
  | none => fallbackDoc rawText

/-- The `/analyze` handler: reject a missing file with 400 before any
inference call; otherwise call the inference client and either report
its failure as a 500 or wrap the pipeline result in the success
envelope. -/
def analyzeHandler (apiKey : String) (file : Option ReqFile) (net : NetOutcome) : HandlerTrace :=
  match file with
  | none =>
    { status := 400, body := Json.obj [("error", Json.str "No file uploaded")],
      geminiCalled := false, fetchIssued := false }
  | some f =>
    let call := callGemini apiKey (toBase64 f.buffer) f.mimetype f.originalname net
    match call.fst with
    | Except.error e =>
      { status := 500, body := Json.obj [("error", Json.str (if e = "" then "Server error" else e))],
        geminiCalled := true, fetchIssued := call.snd }
    | Except.ok rawText =>
      { status := 200, body := Json.obj [("ok", Json.bool true), ("data", analyzeParsed rawText)],
        geminiCalled := true, fetchIssued := call.snd }

example :
    callGemini "k" "b" "image/png" "r.png"
      (NetOutcome.resp 200 "\x7b\"candidates\":[\x7b\"content\":\x7b\"parts\":[\x7b\"text\":\"hello\"\x7d]\x7d\x7d]\x7d") =
    (Except.ok "hello", true) := rfl

example : analyzeParsed "hello" = fallbackDoc "hello" := rfl

example :
    (analyzeHandler "k" (some ⟨"r.png", "image/png", []⟩)
        (NetOutcome.resp 200 "\x7b\"candidates\":[\x7b\"content\":\x7b\"parts\":[\x7b\"text\":\"hello\"\x7d]\x7d\x7d]\x7d")).body =
    Json.obj [("ok", Json.bool true), ("data", fallbackDoc "hello")] := rfl

example :
    callGemini "k" "b" "image/png" "r.png" (NetOutcome.resp 404 "nope") =
    (Except.error "Gemini fetch failed: Gemini HTTP 404: nope", true) := rfl

/-- C4: a request to the analyze endpoint with no uploaded file field is
answered with HTTP status 400 and body with error "No file uploaded";
the inference client is not invoked and no outbound request is issued. -/
theorem analyze_no_file_400 (apiKey : String) (net : NetOutcome) :
    analyzeHandler apiKey none net =
      { status := 400, body := Json.obj [("error", Json.str "No file uploaded")],
        geminiCalled := false, fetchIssued := false } := rfl

/-- C5: with an empty GOOGLE_API_KEY, any call to the inference client
fails with exactly the configuration error "Missing GOOGLE_API_KEY"
(unwrapped, since it is thrown before the try block), and no network
request is issued. -/
theorem callGemini_missing_key (base64 mime filename : String) (net : NetOutcome) :
    callGemini "" base64 mime filename net = (Except.error "Missing GOOGLE_API_KEY", false) := rfl

/-- C1: whenever the JSON parse attempt on the extracted candidate (or,
absent a candidate, on the raw reply itself) fails, the handler still
responds with the success envelope, its data being exactly the generic
fallback document whose notes carry the raw reply verbatim. -/
theorem analyze_parse_failure_fallback (apiKey : String) (f : ReqFile) (net : NetOutcome)
    (raw : String)
    (hcall : (callGemini apiKey (toBase64 f.buffer) f.mimetype f.originalname net).fst =
      Except.ok raw)
    (hparse : Json.parse (parseCandidate raw) = none) :
    (analyzeHandler apiKey (some f) net).status = 200 ∧
    (analyzeHandler apiKey (some f) net).body =
      Json.obj [("ok", Json.bool true),
        ("data", Json.obj [("document_type", Json.str "other"), ("title", Json.str "Analysis"),
          ("summary", Json.str ""), ("notes", Json.str raw)])] := by
  refine ⟨?_, ?_⟩ <;>
    simp only [analyzeHandler, hcall, analyzeParsed, hparse, fallbackDoc]

/-- Witness for C1: a plain prose reply "hello" is not JSON, and the
handler wraps the fallback document for it. -/
theorem analyze_parse_failure_fallback_witness :
    (analyzeHandler "k" (some ⟨"r.png", "image/png", []⟩)
        (NetOutcome.resp 200 "\x7b\"candidates\":[\x7b\"content\":\x7b\"parts\":[\x7b\"text\":\"hello\"\x7d]\x7d\x7d]\x7d")).status = 200 ∧
    (analyzeHandler "k" (some ⟨"r.png", "image/png", []⟩)
        (NetOutcome.resp 200 "\x7b\"candidates\":[\x7b\"content\":\x7b\"parts\":[\x7b\"text\":\"hello\"\x7d]\x7d\x7d]\x7d")).body =
      Json.obj [("ok", Json.bool true),
        ("data", Json.obj [("document_type", Json.str "other"), ("title", Json.str "Analysis"),
          ("summary", Json.str ""), ("notes", Json.str "hello")])] :=
  analyze_parse_failure_fallback "k" ⟨"r.png", "image/png", []⟩
    (NetOutcome.resp 200 "\x7b\"candidates\":[\x7b\"content\":\x7b\"parts\":[\x7b\"text\":\"hello\"\x7d]\x7d\x7d]\x7d")
    "hello" rfl rfl

/-- C6: whenever the JSON parse attempt on the extracted candidate (or,
absent a candidate, on the raw reply) succeeds, the handler responds
with the success envelope carrying the parsed value itself as data. -/
theorem analyze_parse_success_passthrough (apiKey : String) (f : ReqFile) (net : NetOutcome)
    (raw : String) (v : Json)
    (hcall : (callGemini apiKey (toBase64 f.buffer) f.mimetype f.originalname net).fst =
      Except.ok raw)
    (hparse : Json.parse (parseCandidate raw) = some v) :
    (analyzeHandler apiKey (some f) net).status = 200 ∧
    (analyzeHandler apiKey (some f) net).body = Json.obj [("ok", Json.bool true), ("data", v)] := by
  refine ⟨?_, ?_⟩ <;>
    simp only [analyzeHandler, hcall, analyzeParsed, hparse]

/-- Witness for C6: an upstream reply that is exactly the generic
document object yields that object verbatim as data. -/
theorem analyze_parse_success_passthrough_witness :
    (analyzeHandler "k" (some ⟨"r.png", "image/png", []⟩)
        (NetOutcome.resp 200 "\x7b\"candidates\":[\x7b\"content\":\x7b\"parts\":[\x7b\"text\":\"\x7b\\\"document_type\\\":\\\"other\\\",\\\"title\\\":\\\"T\\\",\\\"summary\\\":\\\"S\\\",\\\"notes\\\":\\\"N\\\"\x7d\"\x7d]\x7d\x7d]\x7d")).status = 200 ∧
    (analyzeHandler "k" (some ⟨"r.png", "image/png", []⟩)
        (NetOutcome.resp 200 "\x7b\"candidates\":[\x7b\"content\":\x7b\"parts\":[\x7b\"text\":\"\x7b\\\"document_type\\\":\\\"other\\\",\\\"title\\\":\\\"T\\\",\\\"summary\\\":\\\"S\\\",\\\"notes\\\":\\\"N\\\"\x7d\"\x7d]\x7d\x7d]\x7d")).body =
      Json.obj [("ok", Json.bool true),
        ("data", Json.obj [("document_type", Json.str "other"), ("title", Json.str "T"),
          ("summary", Json.str "S"), ("notes", Json.str "N")])] :=
  analyze_parse_success_passthrough "k" ⟨"r.png", "image/png", []⟩
    (NetOutcome.resp 200 "\x7b\"candidates\":[\x7b\"content\":\x7b\"parts\":[\x7b\"text\":\"\x7b\\\"document_type\\\":\\\"other\\\",\\\"title\\\":\\\"T\\\",\\\"summary\\\":\\\"S\\\",\\\"notes\\\":\\\"N\\\"\x7d\"\x7d]\x7d\x7d]\x7d")
    "\x7b\"document_type\":\"other\",\"title\":\"T\",\"summary\":\"S\",\"notes\":\"N\"\x7d"
    (Json.obj [("document_type", Json.str "other"), ("title", Json.str "T"),
      ("summary", Json.str "S"), ("notes", Json.str "N")])
    rfl rfl

/-- C2: on non-empty text without a fence-regex match, extraction
returns the trimmed inclusive slice from the first left brace to the
last right brace exactly when the former is strictly earlier, and
signals no candidate otherwise; in particular the documented example
extracts its embedded object. -/
theorem extract_brace_spec :
    (∀ (t : String) (i j : Nat), t ≠ "" → fenceCapture t = none →
      listIdxOf lbraceChar t.data = some i → listLastIdxOf rbraceChar t.data = some j →
      i < j →
      extractJsonMaybe t = some (charsStr (trimChars ((t.data.drop i).take (j + 1 - i))))) ∧
    (∀ t : String, t ≠ "" → fenceCapture t = none →
      (listIdxOf lbraceChar t.data = none ∨ listLastIdxOf rbraceChar t.data = none ∨
        (∀ i j : Nat, listIdxOf lbraceChar t.data = some i →
          listLastIdxOf rbraceChar t.data = some j → ¬ i < j)) →
      extractJsonMaybe t = none) ∧
    extractJsonMaybe "Here is data: \x7b\"a\":1\x7d thanks" = some "\x7b\"a\":1\x7d" := by
  refine ⟨?_, ?_, rfl⟩
  · intro t i j ht hf hi hj hij
    simp [extractJsonMaybe, braceExtract, ht, hf, hi, hj, hij]
  · intro t ht hf hcase
    rcases hcase with h1 | h2 | h3
    · simp [extractJsonMaybe, braceExtract, ht, hf, h1]
    · rcases hx : listIdxOf lbraceChar t.data with _ | i
      · simp [extractJsonMaybe, braceExtract, ht, hf, hx]
      · simp [extractJsonMaybe, braceExtract, ht, hf, hx, h2]
    · rcases hx : listIdxOf lbraceChar t.data with _ | i
      · simp [extractJsonMaybe, braceExtract, ht, hf, hx]
      · rcases hy : listLastIdxOf rbraceChar t.data with _ | j
        · simp [extractJsonMaybe, braceExtract, ht, hf, hx, hy]
        · simp [extractJsonMaybe, braceExtract, ht, hf, hx, hy, h3 i j hx hy]

/-- Witness for C2 on the documented example (first brace at index 14,
last at index 20). -/
theorem extract_brace_spec_witness :
    ("Here is data: \x7b\"a\":1\x7d thanks" : String) ≠ "" ∧
    extractJsonMaybe "Here is data: \x7b\"a\":1\x7d thanks" =
      some (charsStr (trimChars
        ((("Here is data: \x7b\"a\":1\x7d thanks" : String).data.drop 14).take (20 + 1 - 14)))) :=
  ⟨by decide,
   extract_brace_spec.1 "Here is data: \x7b\"a\":1\x7d thanks" 14 20
     (by decide) rfl rfl rfl (by decide)⟩

/-- C3 counterexample: this text contains a fenced code block (the
regex matches, with empty capture), yet extraction returns the brace
slice found elsewhere in the text, not the (empty) trimmed interior of
the fence. -/
theorem extract_fence_claim_counterexample :
    fenceCapture "``` ``` \x7b\"a\":1\x7d" = some "" ∧
    extractJsonMaybe "``` ``` \x7b\"a\":1\x7d" = some "\x7b\"a\":1\x7d" ∧
    (some "\x7b\"a\":1\x7d" : Option String) ≠ some "" :=
  ⟨rfl, rfl, by decide⟩

/-- C3 (amended): whenever the first fence-regex match has a non-empty
capture, extraction returns that capture trimmed, taking priority over
any brace scanning. -/
theorem extract_fence_nonempty_priority (t cap : String)
    (h : fenceCapture t = some cap) (hne : cap ≠ "") :
    extractJsonMaybe t = some (jsTrimStr cap) := by
  have ht : t ≠ "" := by
    intro he
    rw [he] at h
    exact Option.noConfusion (h.symm.trans (show fenceCapture "" = none from rfl))
  simp [extractJsonMaybe, ht, h, hne]

/-- Witness for the amended C3: a tagged fenced block wins over the
braces that occur later in the text. -/
theorem extract_fence_nonempty_priority_witness :
    extractJsonMaybe "```json\n\x7b\"a\":1\x7d\n``` and \x7b\"b\":2\x7d" =
      some (jsTrimStr "\x7b\"a\":1\x7d") :=
  extract_fence_nonempty_priority "```json\n\x7b\"a\":1\x7d\n``` and \x7b\"b\":2\x7d"
    "\x7b\"a\":1\x7d" rfl (by decide)

/-- C9: when the fence-regex match has an empty (falsy) capture, the
fence branch is not taken: extraction falls through to brace scanning
over the whole text, and to no candidate when brace scanning fails. -/
theorem fence_empty_capture_falls_through (t : String)
    (h : fenceCapture t = some "") :
    extractJsonMaybe t = braceExtract t ∧
    (braceExtract t = none → extractJsonMaybe t = none) := by
  have ht : t ≠ "" := by
    intro he
    rw [he] at h
    exact Option.noConfusion (h.symm.trans (show fenceCapture "" = none from rfl))
  constructor
  · simp [extractJsonMaybe, ht, h]
  · intro hb
    simp [extractJsonMaybe, ht, h, hb]

/-- Witness for C9: a whitespace-only fenced block with no braces
anywhere yields no candidate. -/
theorem fence_empty_capture_falls_through_witness :
    extractJsonMaybe "``` ```" = braceExtract "``` ```" ∧
    (braceExtract "``` ```" = none → extractJsonMaybe "``` ```" = none) :=
  fence_empty_capture_falls_through "``` ```" rfl

/-- C10: a raw reply with no fence and no brace pair that is itself
valid JSON (a number, an array) yields no extraction candidate, parses
as-is, and is passed through verbatim as the handler's data — a shape
that is neither of the two documented result documents (in particular
not the fallback document). -/
theorem nonobject_json_passthrough :
    extractJsonMaybe "123" = none ∧
    analyzeParsed "123" = Json.num "123" ∧
    extractJsonMaybe "[1,2]" = none ∧
    analyzeParsed "[1,2]" = Json.arr [Json.num "1", Json.num "2"] ∧
    Json.num "123" ≠ fallbackDoc "123" ∧
    (analyzeHandler "k" (some ⟨"r.png", "image/png", []⟩)
        (NetOutcome.resp 200 "\x7b\"candidates\":[\x7b\"content\":\x7b\"parts\":[\x7b\"text\":\"123\"\x7d]\x7d\x7d]\x7d")).body =
      Json.obj [("ok", Json.bool true), ("data", Json.num "123")] :=
  ⟨rfl, rfl, rfl, rfl, fun h => Json.noConfusion h, rfl⟩

/-- C8: two handler runs whose inference calls deliver the same raw
reply text produce the same response status and body, whatever the
credential, uploaded file, and network outcome of each run: the
extraction-parse-fallback pipeline is a pure function of the reply
text, with no state shared between runs. -/
theorem analyze_pipeline_deterministic
    (k1 k2 : String) (f1 f2 : ReqFile) (n1 n2 : NetOutcome) (raw : String)
    (h1 : (callGemini k1 (toBase64 f1.buffer) f1.mimetype f1.originalname n1).fst = Except.ok raw)
    (h2 : (callGemini k2 (toBase64 f2.buffer) f2.mimetype f2.originalname n2).fst = Except.ok raw) :
    (analyzeHandler k1 (some f1) n1).status = (analyzeHandler k2 (some f2) n2).status ∧
    (analyzeHandler k1 (some f1) n1).body = (analyzeHandler k2 (some f2) n2).body := by
  refine ⟨?_, ?_⟩ <;> simp only [analyzeHandler, h1, h2]

/-- Witness for C8: two runs with different credentials, files, and
response bodies, both delivering the reply "hi", respond identically. -/
theorem analyze_pipeline_deterministic_witness :
    (analyzeHandler "a" (some ⟨"x.png", "image/png", [1]⟩)
        (NetOutcome.resp 200 "\x7b\"candidates\":[\x7b\"content\":\x7b\"parts\":[\x7b\"text\":\"hi\"\x7d]\x7d\x7d]\x7d")).status =
      (analyzeHandler "bb" (some ⟨"y.jpg", "image/jpeg", []⟩)
        (NetOutcome.resp 201 "\x7b\"candidates\":[\x7b\"content\":\x7b\"parts\":[\x7b\"text\":\"hi\"\x7d]\x7d\x7d],\"modelVersion\":\"m\"\x7d")).status ∧
    (analyzeHandler "a" (some ⟨"x.png", "image/png", [1]⟩)
        (NetOutcome.resp 200 "\x7b\"candidates\":[\x7b\"content\":\x7b\"parts\":[\x7b\"text\":\"hi\"\x7d]\x7d\x7d]\x7d")).body =
      (analyzeHandler "bb" (some ⟨"y.jpg", "image/jpeg", []⟩)
        (NetOutcome.resp 201 "\x7b\"candidates\":[\x7b\"content\":\x7b\"parts\":[\x7b\"text\":\"hi\"\x7d]\x7d\x7d],\"modelVersion\":\"m\"\x7d")).body :=
  analyze_pipeline_deterministic "a" "bb" ⟨"x.png", "image/png", [1]⟩ ⟨"y.jpg", "image/jpeg", []⟩
    (NetOutcome.resp 200 "\x7b\"candidates\":[\x7b\"content\":\x7b\"parts\":[\x7b\"text\":\"hi\"\x7d]\x7d\x7d]\x7d")
    (NetOutcome.resp 201 "\x7b\"candidates\":[\x7b\"content\":\x7b\"parts\":[\x7b\"text\":\"hi\"\x7d]\x7d\x7d],\"modelVersion\":\"m\"\x7d")
    "hi" rfl rfl

/-- C7 counterexample: an HTTP-ok response whose first candidate has
exactly one text segment, the empty string.  Text segments exist and
their newline-join is "", yet the client returns the JSON-stringified
response body (a non-empty string), not that join: the stringify
fallback triggers on an empty join, not only when no segments exist. -/
theorem reply_text_claim_counterexample :
    Json.parse "\x7b\"candidates\":[\x7b\"content\":\x7b\"parts\":[\x7b\"text\":\"\"\x7d]\x7d\x7d]\x7d" =
      some (Json.obj [("candidates", Json.arr [Json.obj [("content",
        Json.obj [("parts", Json.arr [Json.obj [("text", Json.str "")]])])]])]) ∧
    navParts (Json.obj [("candidates", Json.arr [Json.obj [("content",
        Json.obj [("parts", Json.arr [Json.obj [("text", Json.str "")]])])]])]) =
      some (Json.arr [Json.obj [("text", Json.str "")]]) ∧
    partsTexts (printFuel "\x7b\"candidates\":[\x7b\"content\":\x7b\"parts\":[\x7b\"text\":\"\"\x7d]\x7d\x7d]\x7d")
        [Json.obj [("text", Json.str "")]] = Except.ok [""] ∧
    joinNl [""] = "" ∧
    callGemini "k" "b" "image/png" "r.png"
        (NetOutcome.resp 200 "\x7b\"candidates\":[\x7b\"content\":\x7b\"parts\":[\x7b\"text\":\"\"\x7d]\x7d\x7d]\x7d") =
      (Except.ok "\x7b\"candidates\":[\x7b\"content\":\x7b\"parts\":[\x7b\"text\":\"\"\x7d]\x7d\x7d]\x7d", true) ∧
    ("\x7b\"candidates\":[\x7b\"content\":\x7b\"parts\":[\x7b\"text\":\"\"\x7d]\x7d\x7d]\x7d" : String) ≠ "" :=
  ⟨rfl, rfl, rfl, rfl, rfl, by decide⟩

/-- C7 (amended): for every HTTP-ok upstream response whose body parses
as JSON and whose candidates[0].content.parts path yields an array
mapped without error by the text callback, the client returns the
newline-join of the mapped part texts, except that when that join is
the empty string it returns the JSON-stringified parsed body instead
(as it also does when the parts path is absent). -/
theorem callGemini_reply_text_amended
    (apiKey base64 mime filename body : String) (status : Nat) (data : Json)
    (parts : List Json) (texts : List String)
    (hk : apiKey ≠ "") (hok : resOk status = true)
    (hbody : Json.parse body = some data)
    (hnav : navParts data = some (Json.arr parts))
    (htexts : partsTexts (printFuel body) parts = Except.ok texts) :
    callGemini apiKey base64 mime filename (NetOutcome.resp status body) =
      (Except.ok (if joinNl texts = "" then Json.stringify (printFuel body) data
                  else joinNl texts), true) := by
  simp [callGemini, extractReplyText, hk, hok, hbody, hnav, htexts]

/-- Witness for the amended C7: one candidate with one text part
"hello" makes the client return "hello". -/
theorem callGemini_reply_text_amended_witness :
    callGemini "k" "b" "image/png" "r.png"
        (NetOutcome.resp 200 "\x7b\"candidates\":[\x7b\"content\":\x7b\"parts\":[\x7b\"text\":\"hello\"\x7d]\x7d\x7d]\x7d") =
      (Except.ok "hello", true) :=
  callGemini_reply_text_amended "k" "b" "image/png" "r.png"
    "\x7b\"candidates\":[\x7b\"content\":\x7b\"parts\":[\x7b\"text\":\"hello\"\x7d]\x7d\x7d]\x7d" 200
    (Json.obj [("candidates", Json.arr [Json.obj [("content",
      Json.obj [("parts", Json.arr [Json.obj [("text", Json.str "hello")]])])]])])
    [Json.obj [("text", Json.str "hello")]] ["hello"]
    (by decide) rfl rfl rfl rfl
